import Mathlib

/-!
Shallow embedding of the Objective-C exposure checker implemented in
`lib/Sema/TypeCheckDeclObjC.cpp`.

Conventions of the embedding:

* Each Lean definition mirrors the source function of the same name.
* The AST `Type` of the compiler is modelled by `Ty`: the embedding keeps the
  structure that the checker actually inspects (`Void` / one level of
  `Optional` / function types), and carries the answers of the external type
  oracles (`isRepresentableIn`, `getForeignRepresentableIn`, `hasError`,
  `isUninhabited`), which are implemented outside the excerpt, as fields of
  `TyAttrs`.
* Diagnostics are modelled by the list of diagnostic kinds emitted, in
  emission order.  Fatal termination (`llvm_unreachable`) is modelled by
  `Option.none`.
-/

/-- Result of `Type::getForeignRepresentableIn` (external oracle), as matched
by `isBridgedToObjectiveCClass`. -/
inductive ForeignRepresentableKind where
  | noneRep
  | trivial
  | object
  | bridged
  | staticBridged
  | bridgedError
deriving DecidableEq

/-- The five `ForeignErrorConvention::Kind` values. -/
inductive FECKind where
  | zeroResult
  | nonZeroResult
  | zeroPreservedResult
  | nilResult
  | nonNilError
deriving DecidableEq

/-- The `ObjCReason` tags (payloads of `WitnessToObjC` are dropped; they feed
only diagnostic arguments, which the embedding does not track). -/
inductive ObjCReason where
  | explicitlyCDecl
  | explicitlyDynamic
  | explicitlyObjC
  | explicitlyIBOutlet
  | explicitlyIBAction
  | explicitlyNSManaged
  | memberOfObjCProtocol
  | overridesObjC
  | witnessToObjC
  | implicitlyObjC
  | memberOfObjCExtension
  | explicitlyIBInspectable
  | explicitlyGKInspectable
  | memberOfObjCSubclass
  | memberOfObjCMembersClass
  | accessor
deriving DecidableEq

/-- `AccessorKind` values distinguished by `isRepresentableInObjC`. -/
inductive AccessorKind where
  | get
  | set
  | didSet
  | willSet
  | materializeForSet
  | address
  | mutableAddress
deriving DecidableEq

/-- `ClassDecl::ForeignKind`. -/
inductive ForeignKind where
  | normal
  | cfType
  | runtimeOnly
deriving DecidableEq

/-- Canonical types that can appear inside a synthesized error convention:
the sentinel booleans and the injected error-parameter type, built from
`NSError` by the code at lines 614-624 of the source. -/
inductive CTy where
  | objcBool
  | swiftBool
  | nsError
  | optionalC (t : CTy)
  | autoreleasingUnsafeMutablePointer (t : CTy)
deriving DecidableEq

/-- Diagnostic kinds emitted by the embedded functions, named after the
entries of the `diag::` namespace used in the source, together with the
integer format arguments the source passes where those arguments are
produced by this subsystem. -/
inductive DiagKind where
  | objc_invalid_on_func_variadic (attrKind : Nat)
  | objc_invalid_on_func_inout (attrKind : Nat)
  | objc_invalid_on_func_single_param_type (attrKind : Nat)
  | objc_invalid_on_func_param_type (paramNum : Nat) (attrKind : Nat)
  | objc_invalid_on_func_result_type (attrKind : Nat)
  | objc_invalid_on_failing_init (attrKind : Nat)
  | broken_bool
  | objc_invalid_on_throwing_result (attrKind : Nat)
  | objc_invalid_on_throwing_optional_result (attrKind : Nat)
  | objc_operator
  | objc_operator_proto
  | objc_getter_for_nonobjc_property
  | objc_getter_for_nonobjc_subscript
  | objc_setter_for_nonobjc_property
  | objc_setter_for_nonobjc_subscript
  | objc_observing_accessor
  | objc_addressor
  | objc_invalid_with_generic_params (attrKind : Nat)
  | objc_invalid_on_foreign_class (attrKind : Nat)
  | objc_in_objc_runtime_visible (attrKind : Nat)
  | objc_in_extension_context
  | objc_in_generic_extension
  | objc_inferring_on_objc_protocol_member
  | objc_overriding_objc_decl
  | objc_witness_objc_requirement
  | not_objc_empty_tuple
  | not_objc_function_type_throwing
  | not_objc_function_type_param
  | other_not_representable (k : Nat)
  | objc_override_method_selector_mismatch
  | objc_override_property_name_mismatch
  | overridden_here
  | objc_ambiguous_inference
  | objc_ambiguous_inference_candidate
  | req_near_match_nonobjc
deriving DecidableEq

/-- Answers of the external type oracles for a type node.  `nrDiags` is the
informational classification that `diagnoseTypeNotRepresentableInObjC` emits
for type shapes (classes, structs, enums, existentials, archetypes) whose
structure lives outside the modelled fragment. -/
structure TyAttrs where
  representable : Bool := false
  frKind : ForeignRepresentableKind := .noneRep
  hasError : Bool := false
  isUninhabited : Bool := false
  nrDiags : List DiagKind := []
deriving DecidableEq

/-- The type structure the checker inspects: `Void` (the empty tuple), one
level of `Optional`, function types (with their `throws` bit), and all other
types collapsed to `otherTy` carrying their oracle answers. -/
inductive Ty where
  | voidTy (a : TyAttrs)
  | optionalTy (obj : Ty) (a : TyAttrs)
  | fnTy (throwsFlag : Bool) (a : TyAttrs)
  | otherTy (a : TyAttrs)
deriving DecidableEq

def Ty.attrs : Ty → TyAttrs
  | .voidTy a => a
  | .optionalTy _ a => a
  | .fnTy _ a => a
  | .otherTy a => a

def Ty.isVoid : Ty → Bool
  | .voidTy _ => true
  | _ => false

def Ty.getOptionalObjectType : Ty → Option Ty
  | .optionalTy obj _ => some obj
  | _ => none

def Ty.isAnyFunctionType : Ty → Bool
  | .fnTy _ _ => true
  | _ => false

/-- `getRValueType`: the parameter types handled here are already rvalue
types, so this is the identity in the embedding. -/
def Ty.getRValueType (t : Ty) : Ty := t

/-- `Type::isRepresentableIn(ForeignLanguage::ObjectiveC, dc)` (external
oracle, carried on the type). -/
def Ty.isRepresentableIn (t : Ty) : Bool := t.attrs.representable

def Ty.hasError (t : Ty) : Bool := t.attrs.hasError

def Ty.isUninhabited (t : Ty) : Bool := t.attrs.isUninhabited

/-- `ForeignErrorConvention` values: kind, injected-parameter index, ownership
and replaced flags, the injected parameter type and (for the Result kinds)
the sentinel result type. -/
structure ForeignErrorConvention where
  kind : FECKind
  errorParameterIndex : Nat
  isOwned : Bool := false
  isReplaced : Bool := false
  errorParameterType : Option CTy := none
  resultType : Option CTy := none
deriving DecidableEq

/-- `ForeignErrorConvention::isErrorParameterReplacedWithVoid`. -/
def ForeignErrorConvention.isErrorParameterReplacedWithVoid
    (fe : ForeignErrorConvention) : Bool := fe.isReplaced

/-- Modelled from the spec: the `ForeignErrorConvention::getZeroResult`
factory (declared in `swift/AST/ForeignErrorConvention.h`, which is not part
of the excerpt) packages kind `ZeroResult` with index, flags, parameter type
and sentinel result type. -/
def ForeignErrorConvention.getZeroResult (idx : Nat) (owned replaced : Bool)
    (pty : Option CTy) (rty : Option CTy) : ForeignErrorConvention :=
  { kind := .zeroResult, errorParameterIndex := idx, isOwned := owned,
    isReplaced := replaced, errorParameterType := pty, resultType := rty }

/-- Modelled from the spec: `ForeignErrorConvention::getNonZeroResult`. -/
def ForeignErrorConvention.getNonZeroResult (idx : Nat) (owned replaced : Bool)
    (pty : Option CTy) (rty : Option CTy) : ForeignErrorConvention :=
  { kind := .nonZeroResult, errorParameterIndex := idx, isOwned := owned,
    isReplaced := replaced, errorParameterType := pty, resultType := rty }

/-- Modelled from the spec: `ForeignErrorConvention::getZeroPreservedResult`. -/
def ForeignErrorConvention.getZeroPreservedResult (idx : Nat)
    (owned replaced : Bool) (pty : Option CTy) : ForeignErrorConvention :=
  { kind := .zeroPreservedResult, errorParameterIndex := idx, isOwned := owned,
    isReplaced := replaced, errorParameterType := pty, resultType := none }

/-- Modelled from the spec: `ForeignErrorConvention::getNilResult`. -/
def ForeignErrorConvention.getNilResult (idx : Nat) (owned replaced : Bool)
    (pty : Option CTy) : ForeignErrorConvention :=
  { kind := .nilResult, errorParameterIndex := idx, isOwned := owned,
    isReplaced := replaced, errorParameterType := pty, resultType := none }

/-- A parameter declaration, as inspected by
`isParamListRepresentableInObjC`. -/
structure Param where
  isVariadic : Bool := false
  isInOut : Bool := false
  hasType : Bool := true
  type : Ty := .voidTy {}
deriving DecidableEq

/-- The overridden declaration, as consulted for the `Void`-parameter
exception. -/
structure OverriddenDecl where
  isObjC : Bool := true
  foreignError : Option ForeignErrorConvention := none
deriving DecidableEq

/-- The data of an `AccessorDecl` inspected by `isRepresentableInObjC`. -/
structure AccessorInfo where
  storageIsObjC : Bool := true
  isGetter : Bool := true
  storageIsVar : Bool := true
  kind : AccessorKind := .get
deriving DecidableEq

/-- An `AbstractFunctionDecl` restricted to the fields the checker reads.
Context queries (`getDeclContext`, extension shape, foreign-class kind) are
flattened into fields. -/
structure AbstractFunctionDecl where
  isConstructor : Bool := false
  ctorFailabilityIsNone : Bool := true
  zeroParamLongSelector : Bool := false
  params : List Param := []
  resultType : Ty := .voidTy {}
  hasThrows : Bool := false
  isOperator : Bool := false
  inProtocolContext : Bool := false
  accessor : Option AccessorInfo := none
  hasOwnGenericParams : Bool := false
  contextForeignKind : Option ForeignKind := none
  inExtension : Bool := false
  extTrailingWhere : Bool := false
  extGenericAncestorHasClangNode : Option Bool := none
  objcAttrName : Option (List String) := none
  overridden : Option OverriddenDecl := none
deriving DecidableEq

/-- The ambient `ASTContext` facts the checker consults: the legacy-inference
language flag and the availability of the well-known library types. -/
structure Ctx where
  enableSwift3ObjCInference : Bool := false
  hasObjCBoolDecl : Bool := true
  hasBoolDecl : Bool := true
  hasNSErrorType : Bool := true
deriving DecidableEq

/-- Outcome of `TypeChecker::isRepresentableInObjC` on a function: the
boolean verdict, the `errorConvention` out-parameter, and the diagnostics
emitted. -/
structure CheckOut where
  ok : Bool
  conv : Option ForeignErrorConvention := none
  diags : List DiagKind := []
deriving DecidableEq

/-- `swift::shouldDiagnoseObjCReason` (source lines 29-53). -/
def shouldDiagnoseObjCReason (reason : ObjCReason)
    (enableSwift3ObjCInference : Bool) : Bool :=
  match reason with
  | .explicitlyCDecl
  | .explicitlyDynamic
  | .explicitlyObjC
  | .explicitlyIBOutlet
  | .explicitlyIBAction
  | .explicitlyNSManaged
  | .memberOfObjCProtocol
  | .overridesObjC
  | .witnessToObjC
  | .implicitlyObjC
  | .memberOfObjCExtension => true
  | .explicitlyIBInspectable
  | .explicitlyGKInspectable => !enableSwift3ObjCInference
  | .memberOfObjCSubclass
  | .memberOfObjCMembersClass
  | .accessor => false

/-- `swift::getObjCDiagnosticAttrKind` (source lines 55-77).  The dense
numbering mirrors `static_cast<unsigned>(reason)`; the declaration order of
`ObjCReason` is modelled from the spec, which fixes only that diagnosable
reasons map to small dense integers (`TypeCheckObjC.h` is not part of the
excerpt).  The `llvm_unreachable` on the three silent reasons is modelled by
`none`. -/
def getObjCDiagnosticAttrKind : ObjCReason → Option Nat
  | .explicitlyCDecl => some 0
  | .explicitlyDynamic => some 1
  | .explicitlyObjC => some 2
  | .explicitlyIBOutlet => some 3
  | .explicitlyIBAction => some 4
  | .explicitlyNSManaged => some 5
  | .memberOfObjCProtocol => some 6
  | .overridesObjC => some 7
  | .witnessToObjC => some 8
  | .implicitlyObjC => some 9
  | .memberOfObjCExtension => some 10
  | .explicitlyIBInspectable => some 11
  | .explicitlyGKInspectable => some 12
  | .memberOfObjCSubclass => none
  | .memberOfObjCMembersClass => none
  | .accessor => none

/-- Diagnostic-argument form of `getObjCDiagnosticAttrKind`: the source only
calls it on diagnosable reasons, where the `getD 0` default is never used. -/
def attrKindD (reason : ObjCReason) : Nat :=
  (getObjCDiagnosticAttrKind reason).getD 0

/-- `describeObjCReason` (source lines 81-100): the extra note emitted for
protocol-member, override and witness reasons. -/
def describeObjCReason : ObjCReason → List DiagKind
  | .memberOfObjCProtocol => [.objc_inferring_on_objc_protocol_member]
  | .overridesObjC => [.objc_overriding_objc_decl]
  | .witnessToObjC => [.objc_witness_objc_requirement]
  | _ => []

/-- `diagnoseTypeNotRepresentableInObjC` (source lines 102-203) on the
modelled type shapes: `Void` is the empty tuple, function-type parameters get
the throwing/non-throwing diagnostic, `Optional` matches none of the special
cases, and the remaining shapes carry their classification as an oracle. -/
def diagnoseTypeNotRepresentableInObjC : Ty → List DiagKind
  | .voidTy _ => [.not_objc_empty_tuple]
  | .optionalTy _ _ => []
  | .fnTy th _ =>
    if th then [.not_objc_function_type_throwing]
    else [.not_objc_function_type_param]
  | .otherTy a => a.nrDiags

/-- `diagnoseFunctionParamNotRepresentable` (source lines 205-226). -/
def diagnoseFunctionParamNotRepresentable (numParams paramIndex : Nat)
    (p : Param) (reason : ObjCReason) (flag : Bool) : List DiagKind :=
  if !shouldDiagnoseObjCReason reason flag then []
  else
    (if numParams == 1 then
      [DiagKind.objc_invalid_on_func_single_param_type (attrKindD reason)]
     else
      [DiagKind.objc_invalid_on_func_param_type (paramIndex + 1)
        (attrKindD reason)]) ++
    (if p.hasType then diagnoseTypeNotRepresentableInObjC p.type else []) ++
    describeObjCReason reason

/-- The `Void`-parameter exception of `isParamListRepresentableInObjC`
(source lines 270-282): permit `()` when the function throws and overrides a
method whose foreign error convention replaced exactly this parameter with
`Void`. -/
def voidOverrideException (afd : AbstractFunctionDecl) (paramIndex : Nat)
    (param : Param) : Bool :=
  param.type.isVoid && afd.hasThrows &&
    (match afd.overridden with
     | some ov =>
       match ov.foreignError with
       | some fe =>
         fe.isErrorParameterReplacedWithVoid
           && fe.errorParameterIndex == paramIndex
       | none => false
     | none => false)

/-- The parameter loop of `isParamListRepresentableInObjC` (source lines
238-292), carrying `ParamIndex` and the running `IsObjC` flag. -/
def paramListLoop (afd : AbstractFunctionDecl) (reason : ObjCReason)
    (flag diagnoseOn : Bool) (numParams : Nat) :
    Nat → List Param → Bool → Bool × List DiagKind
  | _, [], isObjC => (isObjC, [])
  | paramIndex, param :: rest, isObjC =>
    if param.isVariadic then
      (false,
       if diagnoseOn && shouldDiagnoseObjCReason reason flag then
         DiagKind.objc_invalid_on_func_variadic (attrKindD reason) ::
           describeObjCReason reason
       else [])
    else if param.isInOut then
      (false,
       if diagnoseOn && shouldDiagnoseObjCReason reason flag then
         DiagKind.objc_invalid_on_func_inout (attrKindD reason) ::
           describeObjCReason reason
       else [])
    else if param.type.isRepresentableIn then
      paramListLoop afd reason flag diagnoseOn numParams (paramIndex + 1) rest
        isObjC
    else if voidOverrideException afd paramIndex param then
      paramListLoop afd reason flag diagnoseOn numParams (paramIndex + 1) rest
        isObjC
    else if !diagnoseOn then
      (false, [])
    else
      ((paramListLoop afd reason flag diagnoseOn numParams (paramIndex + 1)
          rest false).1,
       diagnoseFunctionParamNotRepresentable numParams paramIndex param reason
           flag ++
         (paramListLoop afd reason flag diagnoseOn numParams (paramIndex + 1)
             rest false).2)

/-- `isParamListRepresentableInObjC` (source lines 228-294), returning the
verdict and the emitted diagnostics. -/
def isParamListRepresentableInObjC (afd : AbstractFunctionDecl)
    (PL : List Param) (reason : ObjCReason) (flag : Bool) :
    Bool × List DiagKind :=
  paramListLoop afd reason flag (shouldDiagnoseObjCReason reason flag)
    PL.length 0 PL true

/-- `checkObjCInForeignClassContext` (source lines 318-353), returning
whether the declaration is blocked and the diagnostics emitted. -/
def checkObjCInForeignClassContext (fk : Option ForeignKind)
    (reason : ObjCReason) (diagnoseOn : Bool) : Bool × List DiagKind :=
  match fk with
  | none => (false, [])
  | some .normal => (false, [])
  | some .cfType =>
    (true,
     if diagnoseOn then
       DiagKind.objc_invalid_on_foreign_class (attrKindD reason) ::
         describeObjCReason reason
     else [])
  | some .runtimeOnly =>
    (true,
     if diagnoseOn then
       DiagKind.objc_in_objc_runtime_visible (attrKindD reason) ::
         describeObjCReason reason
     else [])

/-- `checkObjCWithGenericParams` (source lines 298-314). -/
def checkObjCWithGenericParams (hasGenericParams : Bool) (reason : ObjCReason)
    (diagnoseOn : Bool) : Bool × List DiagKind :=
  if hasGenericParams then
    (true,
     if diagnoseOn then
       DiagKind.objc_invalid_with_generic_params (attrKindD reason) ::
         describeObjCReason reason
     else [])
  else (false, [])

/-- `checkObjCInExtensionContext` (source lines 359-387). -/
def checkObjCInExtensionContext (afd : AbstractFunctionDecl)
    (diagnoseOn : Bool) : Bool × List DiagKind :=
  if afd.inExtension then
    if afd.extTrailingWhere then
      (true, if diagnoseOn then [DiagKind.objc_in_extension_context] else [])
    else
      match afd.extGenericAncestorHasClangNode with
      | some false =>
        (true, if diagnoseOn then [DiagKind.objc_in_generic_extension] else [])
      | _ => (false, [])
  else (false, [])

/-- The accessor branch of `isRepresentableInObjC` (source lines 438-488). -/
def accessorCheck (ai : AccessorInfo) (reason : ObjCReason)
    (diagnoseOn : Bool) : CheckOut :=
  if !ai.storageIsObjC && reason ≠ ObjCReason.explicitlyCDecl
      && reason ≠ ObjCReason.witnessToObjC then
    { ok := false, conv := none,
      diags :=
        if diagnoseOn then
          (if ai.isGetter then
            (if ai.storageIsVar then [DiagKind.objc_getter_for_nonobjc_property]
             else [DiagKind.objc_getter_for_nonobjc_subscript])
           else
            (if ai.storageIsVar then [DiagKind.objc_setter_for_nonobjc_property]
             else [DiagKind.objc_setter_for_nonobjc_subscript])) ++
            describeObjCReason reason
        else [] }
  else
    match ai.kind with
    | .didSet | .willSet =>
      { ok := false, conv := none,
        diags :=
          if diagnoseOn then
            DiagKind.objc_observing_accessor :: describeObjCReason reason
          else [] }
    | .get | .set => { ok := true, conv := none, diags := [] }
    | .materializeForSet => { ok := false, conv := none, diags := [] }
    | .address | .mutableAddress =>
      { ok := false, conv := none,
        diags :=
          if diagnoseOn then
            DiagKind.objc_addressor :: describeObjCReason reason
          else [] }

/-- `isBridgedToObjectiveCClass` (source lines 396-411). -/
def isBridgedToObjectiveCClass (t : Ty) : Bool :=
  match t.attrs.frKind with
  | .trivial | .noneRep => false
  | .object | .bridged | .bridgedError | .staticBridged => true

/-- Modelled from the spec: `camel_case::getLastWord`
(`swift/Basic/StringExtras.h` is not part of the excerpt).  Each uppercase
letter starts a new camel-case word; the final word is returned. -/
def getLastWordChars : List Char → List Char → List Char
  | word, [] => word
  | word, c :: rest =>
    if c.isUpper then getLastWordChars [c] rest
    else getLastWordChars (word ++ [c]) rest

/-- Modelled from the spec: `camel_case::getLastWord` on strings. -/
def getLastWord (s : String) : String :=
  String.mk (getLastWordChars [] s.data)

/-- The selector-piece search of the error-convention synthesis (source lines
632-653): walk pieces right-to-left, take a piece literally named `error`;
when the walk reaches the first piece, also accept it if its trailing
camel-case word is `Error`.  The fuel argument is the source's loop
variable `i`. -/
def findErrorPieceLoop (pieces : List String) : Nat → Option Nat
  | 0 => none
  | i + 1 =>
    if pieces.getD i "" == "error" then some i
    else if i == 0 && (getLastWord (pieces.getD i "") == "Error") then some 0
    else findErrorPieceLoop pieces i

/-- Whether a parameter type has the trailing-closure form skipped by the
default error-index walk (source lines 671-686): after `getRValueType` and
one level of optionality, a function type. -/
def isTrailingClosureTy (t : Ty) : Bool :=
  match t.getRValueType.getOptionalObjectType with
  | some obj => obj.isAnyFunctionType
  | none => t.getRValueType.isAnyFunctionType

/-- The backward walk of the default error-index computation (source lines
671-686): starting from `i`, step back while the previous parameter looks
like a trailing closure. -/
def skipTrailingClosures (ps : List Param) : Nat → Nat
  | 0 => 0
  | i + 1 =>
    match ps.get? i with
    | some p => if isTrailingClosureTy p.type then skipTrailingClosures ps i
                else i + 1
    | none => i + 1

/-- The default error-parameter index (source lines 657-687): one past the
last parameter (one less for the zero-parameter-long-selector initializer),
then skipping trailing closures. -/
def defaultErrorIndex (afd : AbstractFunctionDecl) : Nat :=
  skipTrailingClosures afd.params
    (if afd.isConstructor && afd.zeroParamLongSelector then
      afd.params.length - 1
     else afd.params.length)

/-- The error-parameter index (source lines 627-687): the selector-piece
search when the `@objc` attribute carries a name, the default walk
otherwise. -/
def errorParamIndexOf (afd : AbstractFunctionDecl) : Nat :=
  match afd.objcAttrName with
  | some pieces =>
    match findErrorPieceLoop pieces pieces.length with
    | some idx => idx
    | none => defaultErrorIndex afd
  | none => defaultErrorIndex afd

/-- The injected error-parameter type
`AutoreleasingUnsafeMutablePointer<NSError?>?` (source lines 614-624). -/
def nsErrorPointerTy : CTy :=
  .optionalC (.autoreleasingUnsafeMutablePointer (.optionalC .nsError))

/-- The final `switch (kind)` of the synthesis (source lines 693-735),
dispatching to the `ForeignErrorConvention` factories; note that the
`NonNilError` arm calls `getNilResult`. -/
def formErrorConvention (kind : FECKind) (idx : Nat) (pty : Option CTy)
    (sentinel : Option CTy) : ForeignErrorConvention :=
  match kind with
  | .zeroResult => ForeignErrorConvention.getZeroResult idx false false pty sentinel
  | .nonZeroResult => ForeignErrorConvention.getNonZeroResult idx false false pty sentinel
  | .zeroPreservedResult => ForeignErrorConvention.getZeroPreservedResult idx false false pty
  | .nilResult => ForeignErrorConvention.getNilResult idx false false pty
  | .nonNilError => ForeignErrorConvention.getNilResult idx false false pty

/-- The convention-kind selection of the synthesis (source lines 548-612):
either a failure with diagnostics, or a kind together with the sentinel
result type. -/
def chooseErrorKind (ctx : Ctx) (reason : ObjCReason) (diagnoseOn : Bool)
    (afd : AbstractFunctionDecl) : Sum (List DiagKind) (FECKind × Option CTy) :=
  if afd.isConstructor then
    if !afd.ctorFailabilityIsNone then
      Sum.inl
        (if diagnoseOn then
          DiagKind.objc_invalid_on_failing_init (attrKindD reason) ::
            describeObjCReason reason
         else [])
    else Sum.inr (FECKind.nilResult, none)
  else if afd.resultType.isVoid then
    if ctx.hasObjCBoolDecl then Sum.inr (FECKind.zeroResult, some CTy.objcBool)
    else if ctx.hasBoolDecl then Sum.inr (FECKind.zeroResult, some CTy.swiftBool)
    else Sum.inl [DiagKind.broken_bool]
  else if afd.resultType.getOptionalObjectType.isNone
      && isBridgedToObjectiveCClass afd.resultType then
    Sum.inr (FECKind.nilResult, none)
  else
    match afd.resultType.getOptionalObjectType with
    | some obj =>
      if isBridgedToObjectiveCClass obj then
        Sum.inl
          (if diagnoseOn then
            DiagKind.objc_invalid_on_throwing_optional_result
                (attrKindD reason) :: describeObjCReason reason
           else [])
      else
        Sum.inl
          (if diagnoseOn then
            DiagKind.objc_invalid_on_throwing_result (attrKindD reason) ::
              describeObjCReason reason
           else [])
    | none =>
      Sum.inl
        (if diagnoseOn then
          DiagKind.objc_invalid_on_throwing_result (attrKindD reason) ::
            describeObjCReason reason
         else [])

/-- The throwing-function block of `isRepresentableInObjC` (source lines
534-736): select the convention kind, build the injected parameter type,
compute the index, and form the convention; failures return the diagnostics
emitted. -/
def synthForeignErrorInfo (ctx : Ctx) (reason : ObjCReason)
    (diagnoseOn : Bool) (afd : AbstractFunctionDecl) :
    Option ForeignErrorConvention × List DiagKind :=
  match chooseErrorKind ctx reason diagnoseOn afd with
  | Sum.inl ds => (none, ds)
  | Sum.inr (kind, sentinel) =>
    (some (formErrorConvention kind (errorParamIndexOf afd)
        (if ctx.hasNSErrorType then some nsErrorPointerTy else none)
        sentinel),
     [])

/-- `TypeChecker::isRepresentableInObjC` for functions (source lines
413-739). -/
def isRepresentableInObjC (ctx : Ctx) (reason : ObjCReason)
    (afd : AbstractFunctionDecl) : CheckOut :=
  match checkObjCInForeignClassContext afd.contextForeignKind reason
      (shouldDiagnoseObjCReason reason ctx.enableSwift3ObjCInference) with
  | (true, ds) => { ok := false, conv := none, diags := ds }
  | (false, _) =>
  match checkObjCWithGenericParams afd.hasOwnGenericParams reason
      (shouldDiagnoseObjCReason reason ctx.enableSwift3ObjCInference) with
  | (true, ds) => { ok := false, conv := none, diags := ds }
  | (false, _) =>
  match checkObjCInExtensionContext afd
      (shouldDiagnoseObjCReason reason ctx.enableSwift3ObjCInference) with
  | (true, ds) => { ok := false, conv := none, diags := ds }
  | (false, _) =>
  if afd.isOperator then
    { ok := false, conv := none,
      diags :=
        [if afd.inProtocolContext then DiagKind.objc_operator_proto
         else DiagKind.objc_operator] }
  else
  match afd.accessor with
  | some ai =>
    accessorCheck ai reason
      (shouldDiagnoseObjCReason reason ctx.enableSwift3ObjCInference)
  | none =>
  if (!(afd.isConstructor && afd.zeroParamLongSelector)
        && !(isParamListRepresentableInObjC afd afd.params reason
              ctx.enableSwift3ObjCInference).1)
      && !(shouldDiagnoseObjCReason reason ctx.enableSwift3ObjCInference) then
    { ok := false, conv := none,
      diags := (isParamListRepresentableInObjC afd afd.params reason
        ctx.enableSwift3ObjCInference).2 }
  else
  if !afd.isConstructor
      && (!afd.resultType.hasError && !afd.resultType.isVoid
          && !afd.resultType.isUninhabited
          && !afd.resultType.isRepresentableIn) then
    { ok := false, conv := none,
      diags :=
        (if !(afd.isConstructor && afd.zeroParamLongSelector) then
          (isParamListRepresentableInObjC afd afd.params reason
            ctx.enableSwift3ObjCInference).2
         else []) ++
        (if shouldDiagnoseObjCReason reason ctx.enableSwift3ObjCInference then
          DiagKind.objc_invalid_on_func_result_type (attrKindD reason) ::
            (diagnoseTypeNotRepresentableInObjC afd.resultType ++
              describeObjCReason reason)
         else []) }
  else if afd.hasThrows then
    match synthForeignErrorInfo ctx reason
        (shouldDiagnoseObjCReason reason ctx.enableSwift3ObjCInference) afd with
    | (some fec, _) =>
      { ok := true, conv := some fec,
        diags :=
          if !(afd.isConstructor && afd.zeroParamLongSelector) then
            (isParamListRepresentableInObjC afd afd.params reason
              ctx.enableSwift3ObjCInference).2
          else [] }
    | (none, ds) =>
      { ok := false, conv := none,
        diags :=
          (if !(afd.isConstructor && afd.zeroParamLongSelector) then
            (isParamListRepresentableInObjC afd afd.params reason
              ctx.enableSwift3ObjCInference).2
           else []) ++ ds }
  else
    { ok := true, conv := none,
      diags :=
        if !(afd.isConstructor && afd.zeroParamLongSelector) then
          (isParamListRepresentableInObjC afd afd.params reason
            ctx.enableSwift3ObjCInference).2
        else [] }

/-- The `@objc` attribute state relevant to name inference: the selector (as
its list of pieces) and whether the name was implicitly set. -/
structure ObjCAttrState where
  name : Option (List String) := none
  isNameImplicit : Bool := false
deriving DecidableEq

/-- The overridden declaration as consulted by `inferObjCName`: a method with
its computed selector, or a property with its Objective-C property name. -/
inductive OverriddenForName where
  | method (isObjC : Bool) (objcSelector : List String)
  | property (isObjC : Bool) (objcPropertyName : String)
deriving DecidableEq

/-- A declaration as inspected by `inferObjCName`. -/
structure NamedValueDecl where
  isDestructor : Bool := false
  attr : Option ObjCAttrState := none
  overridden : Option OverriddenForName := none
  witnessedRequirements : List (List String) := []
deriving DecidableEq

/-- The `setObjCName` closure of `inferObjCName` (source lines 1197-1207):
update the attribute's name (creating an attribute when absent), always
marking the name implicit. -/
def setObjCNameState (sel : List String) : Option ObjCAttrState :=
  some { name := some sel, isNameImplicit := true }

/-- The witnessed-requirement scan of `inferObjCName` (source lines
1283-1319): take the first requirement's runtime name; on the first
disagreement, diagnose the ambiguity (the ambiguity note, two candidate
notes, and the `@nonobjc` suggestion) and stop scanning. -/
def witnessNameScan :
    List (List String) → Option (List String) →
      Option (List String) × List DiagKind
  | [], acc => (acc, [])
  | r :: rest, none => witnessNameScan rest (some r)
  | r :: rest, some f =>
    if r ≠ f then
      (some f,
       [DiagKind.objc_ambiguous_inference,
        DiagKind.objc_ambiguous_inference_candidate,
        DiagKind.objc_ambiguous_inference_candidate,
        DiagKind.req_near_match_nonobjc])
    else witnessNameScan rest (some f)

/-- The witness-derived naming of `inferObjCName` (source lines 1281-1324). -/
def inferObjCNameFromWitnesses (d : NamedValueDecl) :
    Option ObjCAttrState × List DiagKind :=
  match witnessNameScan d.witnessedRequirements none with
  | (some sel, ds) => (setObjCNameState sel, ds)
  | (none, ds) => (d.attr, ds)

/-- The non-override tail of `inferObjCName` (source lines 1277-1324): keep an
already-present name, otherwise consult witnessed requirements. -/
def inferObjCNameNoOverride (d : NamedValueDecl) :
    Option ObjCAttrState × List DiagKind :=
  match d.attr with
  | some a => if a.name.isSome then (d.attr, []) else inferObjCNameFromWitnesses d
  | none => inferObjCNameFromWitnesses d

/-- `inferObjCName` (source lines 1189-1325), returning the resulting `@objc`
attribute state and the diagnostics emitted. -/
def inferObjCName (d : NamedValueDecl) : Option ObjCAttrState × List DiagKind :=
  if d.isDestructor then (d.attr, [])
  else
    match d.overridden with
    | some (.method true ovSel) =>
      (match d.attr with
       | some a =>
         (match a.name with
          | some nm =>
            if nm ≠ ovSel then
              (setObjCNameState ovSel,
               if !a.isNameImplicit then
                 [DiagKind.objc_override_method_selector_mismatch,
                  DiagKind.overridden_here]
               else [])
            else (d.attr, [])
          | none => (setObjCNameState ovSel, []))
       | none => (setObjCNameState ovSel, []))
    | some (.property true pname) =>
      (match d.attr with
       | some a =>
         (match a.name with
          | some nm =>
            if nm ≠ [pname] then
              (setObjCNameState [pname],
               if !a.isNameImplicit then
                 [DiagKind.objc_override_property_name_mismatch,
                  DiagKind.overridden_here]
               else [])
            else (d.attr, [])
          | none => (setObjCNameState [pname], []))
       | none => (setObjCNameState [pname], []))
    | some (.method false _) => inferObjCNameNoOverride d
    | some (.property false _) => inferObjCNameNoOverride d
    | none => inferObjCNameNoOverride d

/-- Whether a single parameter passes the parameter loop: not variadic, not
`inout`, and either representable or covered by the `Void`-override
exception.  This is the claim-level reading of "every parameter passed". -/
def paramPasses (afd : AbstractFunctionDecl) (paramIndex : Nat)
    (p : Param) : Bool :=
  !p.isVariadic && !p.isInOut &&
    (p.type.isRepresentableIn || voidOverrideException afd paramIndex p)

/-- Claim-level predicate: every parameter (indexed from `paramIndex`)
passes. -/
def paramsAllPass (afd : AbstractFunctionDecl) :
    Nat → List Param → Bool
  | _, [] => true
  | paramIndex, p :: rest =>
    paramPasses afd paramIndex p && paramsAllPass afd (paramIndex + 1) rest

/-- Claim-level count of trailing parameters whose type, after looking
through one level of optionality, is a function type. -/
def specTrailingClosureCount (ps : List Param) : Nat :=
  (ps.reverse.takeWhile (fun p => isTrailingClosureTy p.type)).length

/-- Claim-level restatement of the selector-piece search of C4: search the
pieces right-to-left for a piece literally named `error`; failing that,
accept the fragment the search reaches last (the first piece) when its
trailing camel-case word is `Error`. -/
def specErrorPieceIdx (pieces : List String) : Option Nat :=
  match (List.range pieces.length).reverse.find?
      (fun j => pieces.getD j "" == "error") with
  | some j => some j
  | none =>
    if getLastWord (pieces.getD 0 "") == "Error" then some 0 else none

/-! Helper lemmas about the embedded functions. -/

theorem paramListLoop_fst (afd : AbstractFunctionDecl) (reason : ObjCReason)
    (flag diagnoseOn : Bool) (numParams : Nat) :
    ∀ (ps : List Param) (paramIndex : Nat) (acc : Bool),
      (paramListLoop afd reason flag diagnoseOn numParams paramIndex ps acc).1
        = (acc && paramsAllPass afd paramIndex ps) := by
  cases diagnoseOn <;>
    (intro ps
     induction ps with
     | nil => intro idx acc; simp [paramListLoop, paramsAllPass]
     | cons p rest ih =>
       intro idx acc
       cases hv : p.isVariadic <;> cases hio : p.isInOut <;>
         cases hr : p.type.isRepresentableIn <;>
         cases he : voidOverrideException afd idx p <;>
         simp [paramListLoop, paramsAllPass, paramPasses, hv, hio, hr, he, ih])

theorem paramListLoop_snd_suppressed (afd : AbstractFunctionDecl)
    (reason : ObjCReason) (flag : Bool) (numParams : Nat) :
    ∀ (ps : List Param) (paramIndex : Nat) (acc : Bool),
      (paramListLoop afd reason flag false numParams paramIndex ps acc).2
        = [] := by
  intro ps
  induction ps with
  | nil => intro idx acc; simp [paramListLoop]
  | cons p rest ih =>
    intro idx acc
    cases hv : p.isVariadic <;> cases hio : p.isInOut <;>
      cases hr : p.type.isRepresentableIn <;>
      cases he : voidOverrideException afd idx p <;>
      simp [paramListLoop, hv, hio, hr, he, ih]

theorem paramsAllPass_append_bad (afd : AbstractFunctionDecl) (v : Param)
    (hv : v.isVariadic = true ∨ v.isInOut = true) :
    ∀ (pre r : List Param) (paramIndex : Nat),
      paramsAllPass afd paramIndex (pre ++ v :: r) = false := by
  intro pre
  induction pre with
  | nil =>
    intro r idx
    rcases hv with h | h <;> simp [paramsAllPass, paramPasses, h]
  | cons p pre' ih =>
    intro r idx
    simp [paramsAllPass, ih]

theorem accessorCheck_conv (ai : AccessorInfo) (reason : ObjCReason)
    (diagnoseOn : Bool) : (accessorCheck ai reason diagnoseOn).conv = none := by
  unfold accessorCheck
  split
  · rfl
  · split <;> rfl

theorem formErrorConvention_index (kind : FECKind) (idx : Nat)
    (pty sentinel : Option CTy) :
    (formErrorConvention kind idx pty sentinel).errorParameterIndex = idx := by
  cases kind <;> rfl

theorem paramListLoop_cut (afd : AbstractFunctionDecl) (reason : ObjCReason)
    (flag diagnoseOn : Bool) (v : Param)
    (hv : v.isVariadic = true ∨ v.isInOut = true) :
    ∀ (pre : List Param) (r1 r2 : List Param) (n1 n2 paramIndex : Nat)
      (acc : Bool), ((n1 = 1) ↔ (n2 = 1)) →
      paramListLoop afd reason flag diagnoseOn n1 paramIndex
          (pre ++ v :: r1) acc
        = paramListLoop afd reason flag diagnoseOn n2 paramIndex
            (pre ++ v :: r2) acc := by
  intro pre
  induction pre with
  | nil =>
    intro r1 r2 n1 n2 idx acc _
    cases hvv : v.isVariadic
    · rcases hv with h | h
      · rw [h] at hvv; exact absurd hvv (by simp)
      · simp [paramListLoop, hvv, h]
    · simp [paramListLoop, hvv]
  | cons p pre' ih =>
    intro r1 r2 n1 n2 idx acc hn
    have hb : (n1 == 1) = (n2 == 1) := by
      cases h1 : n1 == 1 <;> cases h2 : n2 == 1 <;> simp_all
    have hds : diagnoseFunctionParamNotRepresentable n1 idx p reason flag
        = diagnoseFunctionParamNotRepresentable n2 idx p reason flag := by
      simp [diagnoseFunctionParamNotRepresentable, hb]
    cases hvv : p.isVariadic <;> cases hio : p.isInOut <;>
      cases hr : p.type.isRepresentableIn <;>
      cases he : voidOverrideException afd idx p <;>
      simp [paramListLoop, hvv, hio, hr, he, hds,
        ih r1 r2 n1 n2 (idx + 1) acc hn, ih r1 r2 n1 n2 (idx + 1) false hn]

theorem skipTrailingClosures_append (ps : List Param) (p : Param) :
    ∀ i : Nat, i ≤ ps.length →
      skipTrailingClosures (ps ++ [p]) i = skipTrailingClosures ps i := by
  intro i
  induction i with
  | zero => intro _; rfl
  | succ k ih =>
    intro hk
    have hk' : k < ps.length := hk
    have hget : (ps ++ [p]).get? k = ps.get? k := List.get?_append hk'
    simp only [skipTrailingClosures, hget]
    cases hps : ps.get? k with
    | none => rfl
    | some q =>
      by_cases ht : isTrailingClosureTy q.type
      · simp [ht, ih (Nat.le_of_lt hk')]
      · simp [ht]

theorem skipTrailingClosures_eq_sub (ps : List Param) :
    skipTrailingClosures ps ps.length
      = ps.length - specTrailingClosureCount ps := by
  induction ps using List.reverseRecOn with
  | nil => rfl
  | append_singleton qs p ih =>
    have hlen : (qs ++ [p]).length = qs.length + 1 := by simp
    have hget : (qs ++ [p]).get? qs.length = some p :=
      List.get?_concat_length qs p
    rw [hlen]
    simp only [skipTrailingClosures, hget]
    by_cases ht : isTrailingClosureTy p.type
    · have hcount : specTrailingClosureCount (qs ++ [p])
          = specTrailingClosureCount qs + 1 := by
        simp [specTrailingClosureCount, List.takeWhile, ht]
      rw [if_pos ht, skipTrailingClosures_append qs p qs.length le_rfl, ih,
        hcount, Nat.succ_sub_succ]
    · have hcount : specTrailingClosureCount (qs ++ [p]) = 0 := by
        simp [specTrailingClosureCount, List.takeWhile, ht]
      rw [if_neg ht, hcount, Nat.sub_zero]

theorem conv_some_inversion (ctx : Ctx) (reason : ObjCReason)
    (afd : AbstractFunctionDecl) (c : ForeignErrorConvention)
    (h : (isRepresentableInObjC ctx reason afd).conv = some c) :
    afd.hasThrows = true ∧
      (synthForeignErrorInfo ctx reason
          (shouldDiagnoseObjCReason reason ctx.enableSwift3ObjCInference)
          afd).1 = some c := by
  unfold isRepresentableInObjC at h
  split at h
  · simp at h
  split at h
  · simp at h
  split at h
  · simp at h
  split at h
  · simp at h
  split at h
  · rw [accessorCheck_conv] at h; simp at h
  split at h
  · simp at h
  split at h
  · simp at h
  split at h
  case _ hthrows =>
    split at h
    case _ fec snd heq =>
      simp only [CheckOut.conv] at h
      refine ⟨hthrows, ?_⟩
      rw [heq]
      simpa using h
    case _ ds heq => simp at h
  · simp at h

theorem findErrorPieceLoop_succ (pieces : List String) (i : Nat) :
    findErrorPieceLoop pieces (i + 1)
      = (if pieces.getD i "" == "error" then some i
         else if i == 0 && (getLastWord (pieces.getD i "") == "Error") then
           some 0
         else findErrorPieceLoop pieces i) := rfl

theorem findErrorPieceLoop_spec_aux (pieces : List String) :
    ∀ i : Nat,
      findErrorPieceLoop pieces (i + 1)
        = (match (List.range (i + 1)).reverse.find?
              (fun j => pieces.getD j "" == "error") with
           | some j => some j
           | none =>
             if getLastWord (pieces.getD 0 "") == "Error" then some 0
             else none) := by
  intro i
  induction i with
  | zero =>
    rw [findErrorPieceLoop_succ]
    cases hb : (pieces.getD 0 "" == "error")
    · have hb' : (pieces[0]?.getD "" == "error") = false := by
        simpa [List.getD] using hb
      simp [List.range_succ, List.find?, findErrorPieceLoop, hb']
    · have hb' : (pieces[0]?.getD "" == "error") = true := by
        simpa [List.getD] using hb
      simp [List.range_succ, List.find?, hb']
  | succ k ih =>
    have hrange : (List.range (k + 2)).reverse
        = (k + 1) :: (List.range (k + 1)).reverse := by
      rw [List.range_succ, List.reverse_append]; rfl
    rw [findErrorPieceLoop_succ, hrange]
    cases hb : (pieces.getD (k + 1) "" == "error")
    · have hb' : (pieces[k + 1]?.getD "" == "error") = false := by
        simpa [List.getD] using hb
      simp [List.find?, hb', ih]
    · have hb' : (pieces[k + 1]?.getD "" == "error") = true := by
        simpa [List.getD] using hb
      simp [List.find?, hb']

theorem findErrorPieceLoop_spec (pieces : List String) :
    findErrorPieceLoop pieces pieces.length = specErrorPieceIdx pieces := by
  cases hp : pieces.length with
  | zero =>
    have hnil : pieces = [] := List.length_eq_zero.mp hp
    subst hnil
    simp only [specErrorPieceIdx, findErrorPieceLoop, List.length_nil,
      List.range_zero, List.reverse_nil, List.find?]
    decide
  | succ k =>
    rw [findErrorPieceLoop_spec_aux]
    simp only [specErrorPieceIdx, hp]

theorem synth_some_shape (ctx : Ctx) (reason : ObjCReason) (diagnoseOn : Bool)
    (afd : AbstractFunctionDecl) (c : ForeignErrorConvention)
    (h : (synthForeignErrorInfo ctx reason diagnoseOn afd).1 = some c) :
    ∃ kind sentinel,
      chooseErrorKind ctx reason diagnoseOn afd = Sum.inr (kind, sentinel) ∧
      c = formErrorConvention kind (errorParamIndexOf afd)
          (if ctx.hasNSErrorType then some nsErrorPointerTy else none)
          sentinel := by
  unfold synthForeignErrorInfo at h
  split at h
  · simp at h
  · rename_i kind sentinel heq
    exact ⟨kind, sentinel, heq, by simpa using h.symm⟩

theorem chooseErrorKind_inr (ctx : Ctx) (reason : ObjCReason)
    (diagnoseOn : Bool) (afd : AbstractFunctionDecl) (kind : FECKind)
    (sentinel : Option CTy)
    (h : chooseErrorKind ctx reason diagnoseOn afd = Sum.inr (kind, sentinel)) :
    (afd.isConstructor = true ∧ afd.ctorFailabilityIsNone = true ∧
       kind = FECKind.nilResult ∧ sentinel = none) ∨
    (afd.isConstructor = false ∧ afd.resultType.isVoid = true ∧
       kind = FECKind.zeroResult ∧
       ((ctx.hasObjCBoolDecl = true ∧ sentinel = some CTy.objcBool) ∨
        (ctx.hasObjCBoolDecl = false ∧ ctx.hasBoolDecl = true ∧
          sentinel = some CTy.swiftBool))) ∨
    (afd.isConstructor = false ∧ afd.resultType.isVoid = false ∧
       afd.resultType.getOptionalObjectType = none ∧
       isBridgedToObjectiveCClass afd.resultType = true ∧
       kind = FECKind.nilResult ∧ sentinel = none) := by
  unfold chooseErrorKind at h
  split at h
  · rename_i hc
    split at h
    · simp at h
    · rename_i hf
      left
      simp only [Sum.inr.injEq, Prod.mk.injEq] at h
      exact ⟨hc, by simpa using hf, h.1.symm, h.2.symm⟩
  · rename_i hc
    split at h
    · rename_i hv
      right; left
      split at h
      · rename_i hob
        simp only [Sum.inr.injEq, Prod.mk.injEq] at h
        exact ⟨by simpa using hc, hv, h.1.symm, Or.inl ⟨hob, h.2.symm⟩⟩
      · rename_i hob
        split at h
        · rename_i hbb
          simp only [Sum.inr.injEq, Prod.mk.injEq] at h
          exact ⟨by simpa using hc, hv, h.1.symm,
            Or.inr ⟨by simpa using hob, hbb, h.2.symm⟩⟩
        · simp at h
    · rename_i hv
      split at h
      · rename_i hbr
        right; right
        simp only [Sum.inr.injEq, Prod.mk.injEq] at h
        have hbr' := hbr
        rw [Bool.and_eq_true] at hbr'
        refine ⟨by simpa using hc, by simpa using hv, ?_, hbr'.2,
          h.1.symm, h.2.symm⟩
        exact Option.isNone_iff_eq_none.mp hbr'.1
      · split at h
        · split at h <;> simp at h
        · simp at h

/-! Claim theorems. -/

/-- C2: for every function type with `throwing = true` and a `Void` result
that reaches error-convention synthesis (that is, for which a convention is
produced), the selected convention kind is `ZeroResult` and the sentinel
(error-result) type is the foreign boolean type `ObjCBool`, falling back to
`Bool` when the primary is unavailable. -/
theorem throwing_void_zeroResult_bool_sentinel
    (ctx : Ctx) (reason : ObjCReason) (afd : AbstractFunctionDecl)
    (c : ForeignErrorConvention)
    (hctor : afd.isConstructor = false)
    (hthrows : afd.hasThrows = true)
    (hvoid : afd.resultType.isVoid = true)
    (hconv : (isRepresentableInObjC ctx reason afd).conv = some c) :
    c.kind = FECKind.zeroResult ∧
      c.resultType
        = some (if ctx.hasObjCBoolDecl then CTy.objcBool
                else CTy.swiftBool) := by
  obtain ⟨_, hsynth⟩ := conv_some_inversion ctx reason afd c hconv
  obtain ⟨kind, sentinel, hck, hc⟩ := synth_some_shape _ _ _ _ _ hsynth
  rcases chooseErrorKind_inr _ _ _ _ _ _ hck with
    ⟨h1, _⟩ | ⟨_, _, hk, hsent⟩ | ⟨_, hv, _⟩
  · rw [hctor] at h1; exact absurd h1 (by simp)
  · subst hk; subst hc
    rcases hsent with ⟨hob, hs⟩ | ⟨hob, _, hs⟩ <;> subst hs <;>
      simp [formErrorConvention, ForeignErrorConvention.getZeroResult, hob]
  · rw [hvoid] at hv; exact absurd hv (by simp)

def afdC2 : AbstractFunctionDecl := { hasThrows := true }

def fecC2 : ForeignErrorConvention :=
  { kind := .zeroResult, errorParameterIndex := 0,
    errorParameterType := some nsErrorPointerTy,
    resultType := some CTy.objcBool }

theorem throwing_void_zeroResult_bool_sentinel_witness :
    fecC2.kind = FECKind.zeroResult ∧
      fecC2.resultType
        = some (if ({} : Ctx).hasObjCBoolDecl then CTy.objcBool
                else CTy.swiftBool) :=
  throwing_void_zeroResult_bool_sentinel {} .explicitlyObjC afdC2 fecC2
    rfl rfl rfl (by decide)

/-- C3: for every throwing function (not an initializer) whose `@objc`
attribute supplies no name, the injected error-parameter index of the
produced convention equals the parameter count minus the number of trailing
parameters whose type, after looking through one level of optionality, is a
function type. -/
theorem default_error_index_eq_count_sub_trailing
    (ctx : Ctx) (reason : ObjCReason) (afd : AbstractFunctionDecl)
    (c : ForeignErrorConvention)
    (hctor : afd.isConstructor = false)
    (hthrows : afd.hasThrows = true)
    (hname : afd.objcAttrName = none)
    (hconv : (isRepresentableInObjC ctx reason afd).conv = some c) :
    c.errorParameterIndex
      = afd.params.length - specTrailingClosureCount afd.params := by
  obtain ⟨_, hsynth⟩ := conv_some_inversion ctx reason afd c hconv
  obtain ⟨kind, sentinel, hck, hc⟩ := synth_some_shape _ _ _ _ _ hsynth
  subst hc
  rw [formErrorConvention_index]
  simp [errorParamIndexOf, defaultErrorIndex, hname, hctor,
    skipTrailingClosures_eq_sub]

def tyRepr : Ty := Ty.otherTy { representable := true }

def tyClosure : Ty := Ty.fnTy false { representable := true }

def afdC3 : AbstractFunctionDecl :=
  { hasThrows := true,
    params := [{ type := tyRepr }, { type := tyClosure }] }

def fecC3 : ForeignErrorConvention :=
  { kind := .zeroResult, errorParameterIndex := 1,
    errorParameterType := some nsErrorPointerTy,
    resultType := some CTy.objcBool }

theorem default_error_index_eq_count_sub_trailing_witness :
    fecC3.errorParameterIndex
      = afdC3.params.length - specTrailingClosureCount afdC3.params :=
  default_error_index_eq_count_sub_trailing {} .explicitlyObjC afdC3 fecC3
    rfl rfl rfl (by decide)

/-- C4: for every throwing function whose `@objc` attribute supplies selector
pieces, the injected error-parameter position is found by searching the
pieces right-to-left for a piece literally named `error`, and failing that by
accepting the fragment the search reaches last (the first piece) when its
trailing camel-case word is `Error`; the matched piece's index becomes the
error-parameter index of the produced convention. -/
theorem explicit_selector_error_piece_index
    (ctx : Ctx) (reason : ObjCReason) (afd : AbstractFunctionDecl)
    (pieces : List String) (j : Nat) (c : ForeignErrorConvention)
    (hthrows : afd.hasThrows = true)
    (hname : afd.objcAttrName = some pieces)
    (hfound : specErrorPieceIdx pieces = some j)
    (hconv : (isRepresentableInObjC ctx reason afd).conv = some c) :
    c.errorParameterIndex = j := by
  obtain ⟨_, hsynth⟩ := conv_some_inversion ctx reason afd c hconv
  obtain ⟨kind, sentinel, hck, hc⟩ := synth_some_shape _ _ _ _ _ hsynth
  subst hc
  rw [formErrorConvention_index]
  simp [errorParamIndexOf, hname, findErrorPieceLoop_spec, hfound]

def afdC4 : AbstractFunctionDecl :=
  { hasThrows := true, objcAttrName := some ["doThing", "error"],
    params := [{ type := tyRepr }, { type := tyRepr }] }

def fecC4 : ForeignErrorConvention :=
  { kind := .zeroResult, errorParameterIndex := 1,
    errorParameterType := some nsErrorPointerTy,
    resultType := some CTy.objcBool }

theorem explicit_selector_error_piece_index_witness :
    fecC4.errorParameterIndex = 1 :=
  explicit_selector_error_piece_index {} .explicitlyObjC afdC4
    ["doThing", "error"] 1 fecC4 rfl rfl (by decide) (by decide)

/-- C6: `shouldDiagnoseObjCReason` is a pure function of the reason tag and
the language-mode flag: the three permanently silent reasons yield `false`
for every flag setting, and flipping the legacy-inference flag changes the
result exactly for the two inspectable-attribute reasons. -/
theorem shouldDiagnose_silent_and_flag_dependence :
    ∀ (r : ObjCReason) (b : Bool),
      shouldDiagnoseObjCReason ObjCReason.memberOfObjCSubclass b = false ∧
      shouldDiagnoseObjCReason ObjCReason.memberOfObjCMembersClass b = false ∧
      shouldDiagnoseObjCReason ObjCReason.accessor b = false ∧
      ((shouldDiagnoseObjCReason r true = shouldDiagnoseObjCReason r false) ↔
        ¬(r = ObjCReason.explicitlyIBInspectable ∨
          r = ObjCReason.explicitlyGKInspectable)) := by
  intro r b
  cases r <;> cases b <;> decide

/-- C9: when declaration `B` overrides an exposed method `A` whose computed
selector is `sel`, and `B` carries no explicit name, name inference on `B`
sets `B`'s computed name to `sel` exactly. -/
theorem override_name_adopted_verbatim
    (d : NamedValueDecl) (sel : List String)
    (hdtor : d.isDestructor = false)
    (hov : d.overridden = some (OverriddenForName.method true sel))
    (hnoexp : ∀ a, d.attr = some a →
      a.name = none ∨ a.isNameImplicit = true) :
    ((inferObjCName d).1.bind ObjCAttrState.name) = some sel := by
  unfold inferObjCName
  rw [hov]
  simp only [hdtor, Bool.false_eq_true, if_false]
  cases hattr : d.attr with
  | none => simp [setObjCNameState]
  | some a =>
    cases hnm : a.name with
    | none => simp [hnm, setObjCNameState]
    | some nm =>
      rcases hnoexp a hattr with h | h
      · rw [hnm] at h; exact absurd h (by simp)
      · by_cases hne : nm = sel
        · subst hne
          simp [hnm]
        · simp [hnm, hne, setObjCNameState]

def namedC9 : NamedValueDecl :=
  { overridden := some (OverriddenForName.method true ["foo", "bar"]) }

theorem override_name_adopted_verbatim_witness :
    ((inferObjCName namedC9).1.bind ObjCAttrState.name)
      = some ["foo", "bar"] :=
  override_name_adopted_verbatim namedC9 ["foo", "bar"] rfl rfl
    (by intro a h; simp [namedC9] at h)

/-- C10: every error convention produced by the function representability
check has kind `ZeroResult` or `NilResult` (so `NonZeroResult`,
`ZeroPreservedResult` and `NonNilError` are never attached), and the switch
arm for `NonNilError` itself constructs a `NilResult` convention. -/
theorem produced_convention_kinds :
    (∀ (ctx : Ctx) (reason : ObjCReason) (afd : AbstractFunctionDecl)
       (c : ForeignErrorConvention),
       (isRepresentableInObjC ctx reason afd).conv = some c →
       c.kind = FECKind.zeroResult ∨ c.kind = FECKind.nilResult) ∧
    (∀ (idx : Nat) (pty sentinel : Option CTy),
       (formErrorConvention FECKind.nonNilError idx pty sentinel).kind
         = FECKind.nilResult) := by
  constructor
  · intro ctx reason afd c h
    obtain ⟨_, hsynth⟩ := conv_some_inversion ctx reason afd c h
    obtain ⟨kind, sentinel, hck, hc⟩ := synth_some_shape _ _ _ _ _ hsynth
    rcases chooseErrorKind_inr _ _ _ _ _ _ hck with
      ⟨_, _, hk, _⟩ | ⟨_, _, hk, _⟩ | ⟨_, _, _, _, hk, _⟩ <;>
      subst hk <;> subst hc <;>
      simp [formErrorConvention, ForeignErrorConvention.getNilResult,
        ForeignErrorConvention.getZeroResult]
  · intro idx pty sentinel; rfl

def fecC10 : ForeignErrorConvention :=
  { kind := .zeroResult, errorParameterIndex := 0,
    errorParameterType := some nsErrorPointerTy,
    resultType := some CTy.objcBool }

def afdC10 : AbstractFunctionDecl := { hasThrows := true }

theorem produced_convention_kinds_witness :
    (fecC10.kind = FECKind.zeroResult ∨ fecC10.kind = FECKind.nilResult) ∧
      (formErrorConvention FECKind.nonNilError 3 none none).kind
        = FECKind.nilResult :=
  ⟨produced_convention_kinds.1 {} .explicitlyObjC afdC10 fecC10 (by decide),
   produced_convention_kinds.2 3 none none⟩

theorem chooseErrorKind_optional_bridged (ctx : Ctx) (reason : ObjCReason)
    (diagnoseOn : Bool) (afd : AbstractFunctionDecl) (obj : Ty)
    (attrs : TyAttrs)
    (hctor : afd.isConstructor = false)
    (hres : afd.resultType = Ty.optionalTy obj attrs)
    (hbr : isBridgedToObjectiveCClass obj = true) :
    chooseErrorKind ctx reason diagnoseOn afd
      = Sum.inl
          (if diagnoseOn then
            DiagKind.objc_invalid_on_throwing_optional_result
                (attrKindD reason) :: describeObjCReason reason
           else []) := by
  unfold chooseErrorKind
  simp [hctor, hres, Ty.isVoid, Ty.getOptionalObjectType, hbr]

theorem chooseErrorKind_void_no_bool (ctx : Ctx) (reason : ObjCReason)
    (diagnoseOn : Bool) (afd : AbstractFunctionDecl)
    (hctor : afd.isConstructor = false)
    (hvoid : afd.resultType.isVoid = true)
    (hob : ctx.hasObjCBoolDecl = false) (hbb : ctx.hasBoolDecl = false) :
    chooseErrorKind ctx reason diagnoseOn afd
      = Sum.inl [DiagKind.broken_bool] := by
  unfold chooseErrorKind
  simp [hctor, hvoid, hob, hbb]

theorem isRep_throws_fail (ctx : Ctx) (reason : ObjCReason)
    (afd : AbstractFunctionDecl) (ds : List DiagKind)
    (hacc : afd.accessor = none)
    (hth : afd.hasThrows = true)
    (hsynth : synthForeignErrorInfo ctx reason
        (shouldDiagnoseObjCReason reason ctx.enableSwift3ObjCInference) afd
        = (none, ds)) :
    (isRepresentableInObjC ctx reason afd).ok = false ∧
      (isRepresentableInObjC ctx reason afd).conv = none := by
  unfold isRepresentableInObjC
  split
  · exact ⟨rfl, rfl⟩
  split
  · exact ⟨rfl, rfl⟩
  split
  · exact ⟨rfl, rfl⟩
  split
  · exact ⟨rfl, rfl⟩
  simp only [hacc]
  split
  · exact ⟨rfl, rfl⟩
  split
  · exact ⟨rfl, rfl⟩
  simp [hth, hsynth]

theorem isRep_throws_fail_diags (ctx : Ctx) (reason : ObjCReason)
    (afd : AbstractFunctionDecl) (ds : List DiagKind)
    (hfc : afd.contextForeignKind = none)
    (hgp : afd.hasOwnGenericParams = false)
    (hext : afd.inExtension = false)
    (hop : afd.isOperator = false)
    (hacc : afd.accessor = none)
    (hth : afd.hasThrows = true)
    (hresBad : (!afd.isConstructor
        && (!afd.resultType.hasError && !afd.resultType.isVoid
            && !afd.resultType.isUninhabited
            && !afd.resultType.isRepresentableIn)) = false)
    (hnoEarly : ((!(afd.isConstructor && afd.zeroParamLongSelector)
        && !(isParamListRepresentableInObjC afd afd.params reason
              ctx.enableSwift3ObjCInference).1)
        && !(shouldDiagnoseObjCReason reason ctx.enableSwift3ObjCInference))
        = false)
    (hsynth : synthForeignErrorInfo ctx reason
        (shouldDiagnoseObjCReason reason ctx.enableSwift3ObjCInference) afd
        = (none, ds)) :
    (isRepresentableInObjC ctx reason afd).diags
      = (if !(afd.isConstructor && afd.zeroParamLongSelector) then
          (isParamListRepresentableInObjC afd afd.params reason
            ctx.enableSwift3ObjCInference).2
         else []) ++ ds := by
  unfold isRepresentableInObjC
  simp only [hfc, hgp, hext, hop, hacc, checkObjCInForeignClassContext,
    checkObjCWithGenericParams, checkObjCInExtensionContext,
    Bool.false_eq_true, if_false, hnoEarly, hresBad, hth, if_true, hsynth]

def afdC1 : AbstractFunctionDecl :=
  { params := [{ type := Ty.otherTy {} }] }

/-- C1 counterexample: `afdC1` has a single parameter whose type is not
representable (and the `Void`-override exception does not apply), yet with
diagnostics enabled (reason `ExplicitlyObjC`) `isRepresentableInObjC`
returns `true`; moreover for reason `ExplicitlyIBInspectable` the verdict
flips with the legacy-inference language flag, so it is not the same whether
diagnostics are enabled or suppressed. -/
theorem isRep_true_despite_bad_param :
    paramsAllPass afdC1 0 afdC1.params = false ∧
    (isRepresentableInObjC {} ObjCReason.explicitlyObjC afdC1).ok = true ∧
    (isRepresentableInObjC { enableSwift3ObjCInference := false }
        ObjCReason.explicitlyIBInspectable afdC1).ok = true ∧
    (isRepresentableInObjC { enableSwift3ObjCInference := true }
        ObjCReason.explicitlyIBInspectable afdC1).ok = false := by
  decide

/-- C1 (amended): the boolean verdict of `isParamListRepresentableInObjC` is
`true` exactly when every parameter passes, and it is the same whether
diagnostics are enabled or suppressed; `isRepresentableInObjC` itself
returns `false` on a parameter failure when diagnostics are suppressed for
the reason (with diagnostics enabled it emits diagnostics but the overall
verdict does not reflect the parameter failure). -/
theorem paramList_all_pass_and_suppressed_reject :
    (∀ (afd : AbstractFunctionDecl) (PL : List Param) (reason : ObjCReason)
       (flagA flagB : Bool),
       (isParamListRepresentableInObjC afd PL reason flagA).1
         = (isParamListRepresentableInObjC afd PL reason flagB).1) ∧
    (∀ (afd : AbstractFunctionDecl) (PL : List Param) (reason : ObjCReason)
       (flag : Bool),
       (isParamListRepresentableInObjC afd PL reason flag).1
         = paramsAllPass afd 0 PL) ∧
    (∀ (ctx : Ctx) (reason : ObjCReason) (afd : AbstractFunctionDecl),
       afd.accessor = none →
       (afd.isConstructor && afd.zeroParamLongSelector) = false →
       shouldDiagnoseObjCReason reason ctx.enableSwift3ObjCInference = false →
       paramsAllPass afd 0 afd.params = false →
       (isRepresentableInObjC ctx reason afd).ok = false) := by
  refine ⟨?_, ?_, ?_⟩
  · intro afd PL reason fA fB
    rw [isParamListRepresentableInObjC, isParamListRepresentableInObjC,
      paramListLoop_fst, paramListLoop_fst]
  · intro afd PL reason flag
    rw [isParamListRepresentableInObjC, paramListLoop_fst]
    simp
  · intro ctx reason afd hacc hsp hsup hfail
    have hpl : (isParamListRepresentableInObjC afd afd.params reason
        ctx.enableSwift3ObjCInference).1 = false := by
      rw [isParamListRepresentableInObjC, paramListLoop_fst]
      simp [hfail]
    unfold isRepresentableInObjC
    split
    · rfl
    split
    · rfl
    split
    · rfl
    split
    · rfl
    simp only [hacc]
    have hcond : ((!(afd.isConstructor && afd.zeroParamLongSelector)
        && !(isParamListRepresentableInObjC afd afd.params reason
              ctx.enableSwift3ObjCInference).1)
        && !(shouldDiagnoseObjCReason reason ctx.enableSwift3ObjCInference))
        = true := by
      rw [hsp, hpl, hsup]
      rfl
    simp only [hcond, if_true]

def afdC1W : AbstractFunctionDecl :=
  { params := [{ type := Ty.otherTy {} }] }

theorem paramList_all_pass_and_suppressed_reject_witness :
    ((isParamListRepresentableInObjC afdC1W afdC1W.params
        ObjCReason.memberOfObjCSubclass true).1
      = (isParamListRepresentableInObjC afdC1W afdC1W.params
          ObjCReason.memberOfObjCSubclass false).1) ∧
    ((isParamListRepresentableInObjC afdC1W afdC1W.params
        ObjCReason.memberOfObjCSubclass true).1
      = paramsAllPass afdC1W 0 afdC1W.params) ∧
    (isRepresentableInObjC {} ObjCReason.memberOfObjCSubclass afdC1W).ok
      = false :=
  ⟨paramList_all_pass_and_suppressed_reject.1 afdC1W afdC1W.params
      ObjCReason.memberOfObjCSubclass true false,
   paramList_all_pass_and_suppressed_reject.2.1 afdC1W afdC1W.params
      ObjCReason.memberOfObjCSubclass true,
   paramList_all_pass_and_suppressed_reject.2.2 {}
      ObjCReason.memberOfObjCSubclass afdC1W rfl rfl rfl (by decide)⟩

/-- C5: a variadic or `inout` parameter fails the whole parameter list
immediately: the check's entire result is independent of the parameters
after it, the verdict is `false`, and with diagnostics suppressed for the
reason no diagnostic is emitted. -/
theorem variadic_inout_immediate_failure
    (afd : AbstractFunctionDecl) (reason : ObjCReason) (flag : Bool)
    (pre r1 r2 : List Param) (v : Param)
    (hv : v.isVariadic = true ∨ v.isInOut = true) :
    (isParamListRepresentableInObjC afd (pre ++ v :: r1) reason flag
        = isParamListRepresentableInObjC afd (pre ++ v :: r2) reason flag) ∧
    (isParamListRepresentableInObjC afd (pre ++ v :: r1) reason flag).1
        = false ∧
    (shouldDiagnoseObjCReason reason flag = false →
      (isParamListRepresentableInObjC afd (pre ++ v :: r1) reason flag).2
        = []) := by
  refine ⟨?_, ?_, ?_⟩
  · unfold isParamListRepresentableInObjC
    rcases pre with _ | ⟨p, pre'⟩
    · cases hvv : v.isVariadic
      · rcases hv with h | h
        · rw [h] at hvv; exact absurd hvv (by simp)
        · simp [paramListLoop, hvv, h]
      · simp [paramListLoop, hvv]
    · apply paramListLoop_cut afd reason flag _ v hv (p :: pre') r1 r2 _ _ 0
        true
      constructor <;> intro h <;> exfalso <;>
        simp [List.length_append, List.length_cons] at h
  · rw [isParamListRepresentableInObjC, paramListLoop_fst]
    simp [paramsAllPass_append_bad afd v hv]
  · intro hsup
    rw [isParamListRepresentableInObjC, hsup]
    exact paramListLoop_snd_suppressed afd reason flag _ _ _ _

def pVar : Param := { isVariadic := true }

def afdC5 : AbstractFunctionDecl := {}

def preC5 : List Param := [{ type := tyRepr }]

def r1C5 : List Param := [{ type := tyRepr }]

def r2C5 : List Param := []

theorem variadic_inout_immediate_failure_witness :
    (isParamListRepresentableInObjC afdC5 (preC5 ++ pVar :: r1C5)
        ObjCReason.memberOfObjCSubclass true
      = isParamListRepresentableInObjC afdC5 (preC5 ++ pVar :: r2C5)
          ObjCReason.memberOfObjCSubclass true) ∧
    (isParamListRepresentableInObjC afdC5 (preC5 ++ pVar :: r1C5)
        ObjCReason.memberOfObjCSubclass true).1 = false ∧
    (isParamListRepresentableInObjC afdC5 (preC5 ++ pVar :: r1C5)
        ObjCReason.memberOfObjCSubclass true).2 = [] :=
  ⟨(variadic_inout_immediate_failure afdC5 ObjCReason.memberOfObjCSubclass
      true preC5 r1C5 r2C5 pVar (Or.inl rfl)).1,
   (variadic_inout_immediate_failure afdC5 ObjCReason.memberOfObjCSubclass
      true preC5 r1C5 r2C5 pVar (Or.inl rfl)).2.1,
   (variadic_inout_immediate_failure afdC5 ObjCReason.memberOfObjCSubclass
      true preC5 r1C5 r2C5 pVar (Or.inl rfl)).2.2 rfl⟩

/-- C7: for every throwing function whose result type is a non-optional
bridgeable type, the produced convention kind is `NilResult`; for every
throwing function whose result type is an optional bridgeable type, the
representability check returns `false` with no convention produced (a hard
failure), and when diagnostics are enabled it emits the dedicated
optional-result diagnostic — distinct from the generic
non-representable-result diagnostic. -/
theorem throwing_bridged_result_conventions :
    (∀ (ctx : Ctx) (reason : ObjCReason) (afd : AbstractFunctionDecl)
       (c : ForeignErrorConvention),
       afd.isConstructor = false → afd.hasThrows = true →
       afd.resultType.isVoid = false →
       afd.resultType.getOptionalObjectType = none →
       isBridgedToObjectiveCClass afd.resultType = true →
       (isRepresentableInObjC ctx reason afd).conv = some c →
       c.kind = FECKind.nilResult) ∧
    (∀ (ctx : Ctx) (reason : ObjCReason) (afd : AbstractFunctionDecl)
       (obj : Ty) (attrs : TyAttrs),
       afd.isConstructor = false → afd.hasThrows = true →
       afd.accessor = none →
       afd.resultType = Ty.optionalTy obj attrs →
       isBridgedToObjectiveCClass obj = true →
       (isRepresentableInObjC ctx reason afd).ok = false ∧
       (isRepresentableInObjC ctx reason afd).conv = none) ∧
    (∀ (ctx : Ctx) (reason : ObjCReason) (afd : AbstractFunctionDecl)
       (obj : Ty) (attrs : TyAttrs),
       afd.contextForeignKind = none → afd.hasOwnGenericParams = false →
       afd.inExtension = false → afd.isOperator = false →
       afd.accessor = none → afd.isConstructor = false →
       afd.hasThrows = true →
       afd.resultType = Ty.optionalTy obj attrs →
       attrs.representable = true →
       isBridgedToObjectiveCClass obj = true →
       shouldDiagnoseObjCReason reason ctx.enableSwift3ObjCInference = true →
       DiagKind.objc_invalid_on_throwing_optional_result (attrKindD reason)
           ∈ (isRepresentableInObjC ctx reason afd).diags ∧
       ∀ k, DiagKind.objc_invalid_on_throwing_optional_result
           (attrKindD reason) ≠ DiagKind.objc_invalid_on_throwing_result k) := by
  refine ⟨?_, ?_, ?_⟩
  · intro ctx reason afd c hctor hth hvoid hopt hbr hconv
    obtain ⟨_, hsynth⟩ := conv_some_inversion ctx reason afd c hconv
    obtain ⟨kind, sentinel, hck, hc⟩ := synth_some_shape _ _ _ _ _ hsynth
    rcases chooseErrorKind_inr _ _ _ _ _ _ hck with
      ⟨h1, _⟩ | ⟨_, hv, _⟩ | ⟨_, _, _, _, hk, _⟩
    · rw [hctor] at h1; exact absurd h1 (by simp)
    · rw [hvoid] at hv; exact absurd hv (by simp)
    · subst hk; subst hc; rfl
  · intro ctx reason afd obj attrs hctor hth hacc hres hbr
    have hck := chooseErrorKind_optional_bridged ctx reason
      (shouldDiagnoseObjCReason reason ctx.enableSwift3ObjCInference)
      afd obj attrs hctor hres hbr
    have hsynth : synthForeignErrorInfo ctx reason
        (shouldDiagnoseObjCReason reason ctx.enableSwift3ObjCInference) afd
        = (none,
           if shouldDiagnoseObjCReason reason ctx.enableSwift3ObjCInference
           then DiagKind.objc_invalid_on_throwing_optional_result
               (attrKindD reason) :: describeObjCReason reason
           else []) := by
      unfold synthForeignErrorInfo
      rw [hck]
    exact isRep_throws_fail ctx reason afd _ hacc hth hsynth
  · intro ctx reason afd obj attrs hfc hgp hext hop hacc hctor hth hres hrep
      hbr hdiag
    have hck := chooseErrorKind_optional_bridged ctx reason
      (shouldDiagnoseObjCReason reason ctx.enableSwift3ObjCInference)
      afd obj attrs hctor hres hbr
    have hsynth : synthForeignErrorInfo ctx reason
        (shouldDiagnoseObjCReason reason ctx.enableSwift3ObjCInference) afd
        = (none,
           DiagKind.objc_invalid_on_throwing_optional_result
               (attrKindD reason) :: describeObjCReason reason) := by
      unfold synthForeignErrorInfo
      rw [hck, hdiag]
      simp
    have hresBad : (!afd.isConstructor
        && (!afd.resultType.hasError && !afd.resultType.isVoid
            && !afd.resultType.isUninhabited
            && !afd.resultType.isRepresentableIn)) = false := by
      rw [hres]
      simp [Ty.isRepresentableIn, Ty.attrs, hrep]
    have hnoEarly : ((!(afd.isConstructor && afd.zeroParamLongSelector)
        && !(isParamListRepresentableInObjC afd afd.params reason
              ctx.enableSwift3ObjCInference).1)
        && !(shouldDiagnoseObjCReason reason ctx.enableSwift3ObjCInference))
        = false := by
      rw [hdiag]
      simp
    have hd := isRep_throws_fail_diags ctx reason afd _ hfc hgp hext hop hacc
      hth hresBad hnoEarly hsynth
    refine ⟨?_, ?_⟩
    · rw [hd]
      simp
    · intro k
      simp

def tyBridged : Ty :=
  Ty.otherTy { representable := true, frKind := .bridged }

def afdC7a : AbstractFunctionDecl :=
  { hasThrows := true, resultType := tyBridged }

def fecC7 : ForeignErrorConvention :=
  { kind := .nilResult, errorParameterIndex := 0,
    errorParameterType := some nsErrorPointerTy }

def afdC7b : AbstractFunctionDecl :=
  { hasThrows := true,
    resultType := Ty.optionalTy tyBridged
      { representable := true, frKind := .bridged } }

theorem throwing_bridged_result_conventions_witness :
    fecC7.kind = FECKind.nilResult ∧
    ((isRepresentableInObjC {} ObjCReason.explicitlyObjC afdC7b).ok = false ∧
     (isRepresentableInObjC {} ObjCReason.explicitlyObjC afdC7b).conv
       = none) ∧
    DiagKind.objc_invalid_on_throwing_optional_result
        (attrKindD ObjCReason.explicitlyObjC)
      ∈ (isRepresentableInObjC {} ObjCReason.explicitlyObjC afdC7b).diags ∧
    DiagKind.objc_invalid_on_throwing_optional_result
        (attrKindD ObjCReason.explicitlyObjC)
      ≠ DiagKind.objc_invalid_on_throwing_result 0 :=
  ⟨throwing_bridged_result_conventions.1 {} ObjCReason.explicitlyObjC afdC7a
      fecC7 rfl rfl rfl rfl rfl (by decide),
   throwing_bridged_result_conventions.2.1 {} ObjCReason.explicitlyObjC
      afdC7b tyBridged { representable := true, frKind := .bridged }
      rfl rfl rfl rfl rfl,
   (throwing_bridged_result_conventions.2.2 {} ObjCReason.explicitlyObjC
      afdC7b tyBridged { representable := true, frKind := .bridged }
      rfl rfl rfl rfl rfl rfl rfl rfl rfl rfl rfl).1,
   (throwing_bridged_result_conventions.2.2 {} ObjCReason.explicitlyObjC
      afdC7b tyBridged { representable := true, frKind := .bridged }
      rfl rfl rfl rfl rfl rfl rfl rfl rfl rfl rfl).2 0⟩

def afdC8 : AbstractFunctionDecl := { hasThrows := true }

def ctxC8 : Ctx := { hasObjCBoolDecl := false, hasBoolDecl := false }

/-- C8 counterexample: with neither boolean type available, the throwing
`Void`-result path does not abort the process: it emits the `broken_bool`
diagnostic and returns `false` with no convention, leaving the declaration
un-exposed — contradicting the claim that this case is fatal and does not
recover by leaving the declaration un-exposed. -/
theorem missing_bool_recovers_without_abort :
    isRepresentableInObjC ctxC8 ObjCReason.explicitlyObjC afdC8
      = { ok := false, conv := none, diags := [DiagKind.broken_bool] } := by
  decide

/-- C8 (amended): classifying a non-diagnosable reason is the fatal
condition (`getObjCDiagnosticAttrKind` maps exactly the three silent reasons
to no value, modelling `llvm_unreachable`); reaching the throwing-`Void`
convention selection with neither boolean type available instead emits the
`broken_bool` diagnostic and returns not-representable with no convention,
leaving the declaration un-exposed. -/
theorem fatal_only_nondiagnosable_classification :
    (∀ r : ObjCReason,
       getObjCDiagnosticAttrKind r = none ↔
         (r = ObjCReason.memberOfObjCSubclass ∨
          r = ObjCReason.memberOfObjCMembersClass ∨
          r = ObjCReason.accessor)) ∧
    (∀ (ctx : Ctx) (reason : ObjCReason) (afd : AbstractFunctionDecl),
       afd.contextForeignKind = none → afd.hasOwnGenericParams = false →
       afd.inExtension = false → afd.isOperator = false →
       afd.accessor = none → afd.isConstructor = false →
       afd.hasThrows = true → afd.resultType.isVoid = true →
       ctx.hasObjCBoolDecl = false → ctx.hasBoolDecl = false →
       paramsAllPass afd 0 afd.params = true →
       (isRepresentableInObjC ctx reason afd).ok = false ∧
       (isRepresentableInObjC ctx reason afd).conv = none ∧
       DiagKind.broken_bool ∈ (isRepresentableInObjC ctx reason afd).diags) := by
  refine ⟨?_, ?_⟩
  · intro r
    cases r <;> decide
  · intro ctx reason afd hfc hgp hext hop hacc hctor hth hvoid hob hbb hpass
    have hck := chooseErrorKind_void_no_bool ctx reason
      (shouldDiagnoseObjCReason reason ctx.enableSwift3ObjCInference)
      afd hctor hvoid hob hbb
    have hsynth : synthForeignErrorInfo ctx reason
        (shouldDiagnoseObjCReason reason ctx.enableSwift3ObjCInference) afd
        = (none, [DiagKind.broken_bool]) := by
      unfold synthForeignErrorInfo
      rw [hck]
    obtain ⟨hok, hconv⟩ := isRep_throws_fail ctx reason afd _ hacc hth hsynth
    have hpl : (isParamListRepresentableInObjC afd afd.params reason
        ctx.enableSwift3ObjCInference).1 = true := by
      rw [isParamListRepresentableInObjC, paramListLoop_fst]
      simp [hpass]
    have hresBad : (!afd.isConstructor
        && (!afd.resultType.hasError && !afd.resultType.isVoid
            && !afd.resultType.isUninhabited
            && !afd.resultType.isRepresentableIn)) = false := by
      rw [hvoid]
      simp
    have hnoEarly : ((!(afd.isConstructor && afd.zeroParamLongSelector)
        && !(isParamListRepresentableInObjC afd afd.params reason
              ctx.enableSwift3ObjCInference).1)
        && !(shouldDiagnoseObjCReason reason ctx.enableSwift3ObjCInference))
        = false := by
      rw [hpl]
      simp
    have hd := isRep_throws_fail_diags ctx reason afd _ hfc hgp hext hop hacc
      hth hresBad hnoEarly hsynth
    refine ⟨hok, hconv, ?_⟩
    rw [hd]
    simp

theorem fatal_only_nondiagnosable_classification_witness :
    (getObjCDiagnosticAttrKind ObjCReason.accessor = none ↔
      (ObjCReason.accessor = ObjCReason.memberOfObjCSubclass ∨
       ObjCReason.accessor = ObjCReason.memberOfObjCMembersClass ∨
       ObjCReason.accessor = ObjCReason.accessor)) ∧
    ((isRepresentableInObjC ctxC8 ObjCReason.explicitlyObjC afdC8).ok = false ∧
     (isRepresentableInObjC ctxC8 ObjCReason.explicitlyObjC afdC8).conv
       = none ∧
     DiagKind.broken_bool
       ∈ (isRepresentableInObjC ctxC8 ObjCReason.explicitlyObjC afdC8).diags) :=
  ⟨fatal_only_nondiagnosable_classification.1 ObjCReason.accessor,
   fatal_only_nondiagnosable_classification.2 ctxC8 ObjCReason.explicitlyObjC
     afdC8 rfl rfl rfl rfl rfl rfl rfl rfl rfl rfl rfl⟩
